import Mathlib

/-!
Verification development for the auto-windows repository.

The repository automates interactive VM provisioning and polls a Prism
Central HTTP API for VM readiness.  The definitions below are shallow
embeddings of the Python source:

* `get_vm_ip_address` embeds the polling loop of `get_vm_ip.py`
  (`get_vm_ip_address`), with the remote service modelled as a function
  from the attempt index to that attempt's outcome, and the side effects
  (queries issued, sleeps performed) recorded in the returned trace.
* `automated_input` / `automated_getpass` embed the input/getpass
  substitutes of `deploy_vm_automated_v2.py` / `v3.py` / `v4.py`
  (`create_automated_input_function`, `create_automated_getpass_function`).
* `extract_uuids_from_output` embeds the UUID extractor of
  `deploy_vm_automated_v4.py`.  (`capture_print` of `deploy_vm_automated_v2.py`
  is not modelled: while `builtins.print` is patched to `capture_print`, its
  own debug `print` on any message containing a UUID label re-enters itself
  unboundedly, so a `RecursionError` is raised before either regex
  assignment can run and the v2 capture never stores a value.)
* `run_automated_deployment_v2_globals` / `..._v3_globals` embed the
  save / monkey-patch / finally-restore discipline that
  `run_automated_deployment` applies to `builtins.input`,
  `getpass.getpass` (and `builtins.print` in v2).
* `mainPoll` embeds the configuration-loading prefix of `get_vm_ip.py`'s
  `main`, counting the network queries the run performs.
-/

/-! ## Generic string helpers (Python `in`, `str.lower`, `str.split`) -/

/-- Python `needle in hay` on strings, over the character list. -/
def listContainsSub (needle : List Char) : List Char → Bool
  | [] => needle.isEmpty
  | c :: t => needle.isPrefixOf (c :: t) || listContainsSub needle t

/-- Python `needle in hay` for `String`s. -/
def strContains (needle hay : String) : Bool :=
  listContainsSub needle.data hay.data

/-- Python `str.lower` (ASCII range, which is all the source's markers use). -/
def pyLower (s : String) : String :=
  String.mk (s.data.map Char.toLower)

/-- Python `text.split('\n')`: accumulator for the current line. -/
def splitNlAux : List Char → List Char → List (List Char)
  | [], cur => [cur.reverse]
  | c :: rest, cur =>
    if c = '\n' then cur.reverse :: splitNlAux rest []
    else splitNlAux rest (c :: cur)

/-- Python `text.split('\n')` (keeps empty pieces, `""` gives `[""]`). -/
def pySplitNl (s : List Char) : List (List Char) :=
  splitNlAux s []

/-! ## Readiness Poller data model (`get_vm_ip.py`) -/

/-- One entry of `nic.ip_endpoint_list`: the `ip` and `type` keys may be
absent, as `.get` treats them in the source. -/
structure IpEndpoint where
  ip : Option String
  type : Option String
deriving Repr, DecidableEq

/-- Python truthiness of `ip_endpoint.get('ip')`: present and non-empty. -/
def ipTruthy : Option String → Bool
  | none => false
  | some s => !(s == "")

/-- The test of `get_vm_ip.py` line 62: `if ip_address and ip_type == 'ASSIGNED'`,
with `ip_type = ip_endpoint.get('type', 'UNKNOWN')`. -/
def endpointAssigned (e : IpEndpoint) : Bool :=
  ipTruthy e.ip && (e.type.getD "UNKNOWN" == "ASSIGNED")

/-- The body of one VM-details response: `spec.name`, `spec.resources.power_state`
(each possibly missing, defaulted at access) and
`status.resources.nic_list[].ip_endpoint_list`. -/
structure VmData where
  name : Option String
  power_state : Option String
  nics : List (List IpEndpoint)
deriving Repr, DecidableEq

/-- `vm_data.get('spec', {}).get('name', 'Unknown')`. -/
def vmName (d : VmData) : String := d.name.getD "Unknown"

/-- `vm_data.get('spec', {}).get('resources', {}).get('power_state', 'UNKNOWN')`. -/
def vmPower (d : VmData) : String := d.power_state.getD "UNKNOWN"

/-- Inner loop of the poller over one NIC's `ip_endpoint_list`: the first
endpoint passing the `ASSIGNED` test yields its address. -/
def findInNic : List IpEndpoint → Option String
  | [] => none
  | e :: es => if endpointAssigned e then e.ip else findInNic es

/-- The nested scan of `get_vm_ip.py` lines 56-70: first interface, then first
address in listed order. -/
def findAssignedIp : List (List IpEndpoint) → Option String
  | [] => none
  | nic :: rest =>
    match findInNic nic with
    | some ip => some ip
    | none => findAssignedIp rest

/-- What one poll attempt observes: the request raised a
`requests.exceptions.RequestException`, or a response arrived with a status
code and (when the code is 200) a parsed body. -/
inductive AttemptOutcome where
  | transportErr
  | resp (code : Nat) (data : VmData)
deriving Repr, DecidableEq

/-- An attempt on which the source's SUCCESS test fires: an HTTP 200 response
holding an endpoint with a truthy `ip` of `type` `ASSIGNED`. -/
def attemptAssigned : AttemptOutcome → Bool
  | .transportErr => false
  | .resp code data => code == 200 && (findAssignedIp data.nics).isSome

/-- The record `get_vm_ip_address` returns (its result dictionary). -/
structure PollResult where
  vm_uuid : String
  vm_name : String
  ip_address : Option String
  power_state : String
  status : String
deriving Repr, DecidableEq

/-- The poller's observable behaviour: its returned record, how many HTTP
queries it issued, and the durations of the `time.sleep` calls it made, in
order. -/
structure PollOutput where
  result : PollResult
  queries : Nat
  sleeps : List Nat
deriving Repr, DecidableEq

/-- `vm_name` field of the TIMEOUT record: from the last 200-response body
when one exists (`'vm_data' in locals()`), else the literal. -/
def timeoutName : Option VmData → String
  | some d => vmName d
  | none => "Unknown"

/-- `power_state` field of the TIMEOUT record. -/
def timeoutPower : Option VmData → String
  | some d => vmPower d
  | none => "UNKNOWN"

/-- The TIMEOUT record of `get_vm_ip.py` lines 89-95. -/
def timeoutRecord (uuid : String) (lastData : Option VmData) : PollResult :=
  { vm_uuid := uuid
    vm_name := timeoutName lastData
    ip_address := none
    power_state := timeoutPower lastData
    status := "TIMEOUT" }

/-- The SUCCESS record of `get_vm_ip.py` lines 64-70. -/
def successRecord (uuid ip : String) (d : VmData) : PollResult :=
  { vm_uuid := uuid
    vm_name := vmName d
    ip_address := some ip
    power_state := vmPower d
    status := "SUCCESS" }

/-- The `for attempt in range(max_attempts)` loop of `get_vm_ip_address`,
structurally recursive on the number of remaining iterations (`fuel`), with
`attempt` the current index and `lastData` the body of the most recent 200
response (the source's persisting `vm_data` local).  A sleep of 30 is
performed after every iteration that does not return, except the last
(`if attempt < max_attempts - 1`). -/
def pollFuel (uuid : String) (remote : Nat → AttemptOutcome) (maxAtt : Nat) :
    Nat → Nat → Option VmData → PollOutput
  | 0, _, lastData => { result := timeoutRecord uuid lastData, queries := 0, sleeps := [] }
  | fuel + 1, attempt, lastData =>
    match remote attempt with
    | .transportErr =>
      let rest := pollFuel uuid remote maxAtt fuel (attempt + 1) lastData
      { result := rest.result
        queries := rest.queries + 1
        sleeps := if attempt < maxAtt - 1 then 30 :: rest.sleeps else rest.sleeps }
    | .resp code data =>
      if code == 200 then
        match findAssignedIp data.nics with
        | some ip =>
          { result := successRecord uuid ip data, queries := 1, sleeps := [] }
        | none =>
          let rest := pollFuel uuid remote maxAtt fuel (attempt + 1) (some data)
          { result := rest.result
            queries := rest.queries + 1
            sleeps := if attempt < maxAtt - 1 then 30 :: rest.sleeps else rest.sleeps }
      else
        let rest := pollFuel uuid remote maxAtt fuel (attempt + 1) lastData
        { result := rest.result
          queries := rest.queries + 1
          sleeps := if attempt < maxAtt - 1 then 30 :: rest.sleeps else rest.sleeps }

/-- `get_vm_ip_address(pc_ip, username, password, vm_uuid, max_wait_minutes)`:
`max_attempts = max_wait_minutes * 2`, loop from attempt 0 with no `vm_data`
yet.  Connection parameters do not affect the modelled behaviour and are
dropped; the remote's behaviour is the `remote` function. -/
def get_vm_ip_address (vm_uuid : String) (remote : Nat → AttemptOutcome)
    (max_wait_minutes : Nat) : PollOutput :=
  pollFuel vm_uuid remote (max_wait_minutes * 2) (max_wait_minutes * 2) 0 none

/-- The source's persisting `vm_data` local after the whole loop ran without
returning: fold over the attempts, keeping the body of each 200 response. -/
def lastOkFuel (remote : Nat → AttemptOutcome) :
    Nat → Nat → Option VmData → Option VmData
  | 0, _, acc => acc
  | fuel + 1, attempt, acc =>
    lastOkFuel remote fuel (attempt + 1)
      (match remote attempt with
       | .resp code d => if code == 200 then some d else acc
       | .transportErr => acc)

/-- The body of the most recent 200 response among attempts `0 .. n-1`,
scanning from the latest attempt down. -/
def lastOk200 (remote : Nat → AttemptOutcome) : Nat → Option VmData
  | 0 => none
  | n + 1 =>
    match remote n with
    | .resp code d => if code == 200 then some d else lastOk200 remote n
    | .transportErr => lastOk200 remote n

example :
    (get_vm_ip_address "u" (fun _ => .transportErr) 1).result.status = "TIMEOUT" := by
  decide

example :
    (get_vm_ip_address "u"
      (fun _ => .resp 200
        { name := some "w", power_state := some "ON",
          nics := [[{ ip := some "10.0.0.5", type := some "ASSIGNED" }]] }) 1).result.ip_address
      = some "10.0.0.5" := by
  decide

example :
    (get_vm_ip_address "u"
      (fun _ => .resp 200
        { name := some "w", power_state := some "ON",
          nics := [[{ ip := some "10.0.0.9", type := some "LEARNED" }]] }) 1).result.status
      = "TIMEOUT" := by
  decide

/-! ## Readiness Poller lemmas -/

/-- The poller only ever returns a SUCCESS or a TIMEOUT record: no other
status string (in particular no ERROR) occurs in `get_vm_ip_address`. -/
theorem pollFuel_status_cases (uuid : String) (remote : Nat → AttemptOutcome) (maxAtt : Nat) :
    ∀ fuel attempt lastData,
      (pollFuel uuid remote maxAtt fuel attempt lastData).result.status = "SUCCESS" ∨
      (pollFuel uuid remote maxAtt fuel attempt lastData).result.status = "TIMEOUT" := by
  intro fuel
  induction fuel with
  | zero =>
    intro attempt lastData
    right
    rfl
  | succ fuel ih =>
    intro attempt lastData
    cases hr : remote attempt with
    | transportErr =>
      simpa only [pollFuel, hr] using ih (attempt + 1) lastData
    | resp code data =>
      cases hc : code == 200 with
      | false =>
        simpa only [pollFuel, hr, hc, Bool.false_eq_true, if_false] using
          ih (attempt + 1) lastData
      | true =>
        cases hfa : findAssignedIp data.nics with
        | none =>
          simpa only [pollFuel, hr, hc, if_true, hfa] using ih (attempt + 1) (some data)
        | some ip =>
          left
          simp only [pollFuel, hr, hc, if_true, hfa]
          rfl

/-- The poller reaches SUCCESS exactly when some attempt in range shows an
ASSIGNED address (with a truthy ip) on a 200 response. -/
theorem pollFuel_success_iff (uuid : String) (remote : Nat → AttemptOutcome) (maxAtt : Nat) :
    ∀ fuel attempt lastData,
      ((pollFuel uuid remote maxAtt fuel attempt lastData).result.status = "SUCCESS" ↔
        ∃ i, attempt ≤ i ∧ i < attempt + fuel ∧ attemptAssigned (remote i) = true) := by
  intro fuel
  induction fuel with
  | zero =>
    intro attempt lastData
    have hst : (pollFuel uuid remote maxAtt 0 attempt lastData).result.status = "TIMEOUT" := rfl
    constructor
    · intro h
      rw [hst] at h
      exact absurd h (by decide)
    · rintro ⟨i, h1, h2, _⟩
      omega
  | succ fuel ih =>
    intro attempt lastData
    have shift : ∀ P : Nat → Prop, (∃ i, attempt + 1 ≤ i ∧ i < attempt + 1 + fuel ∧ P i) →
        ∃ i, attempt ≤ i ∧ i < attempt + (fuel + 1) ∧ P i := by
      rintro P ⟨i, h1, h2, h3⟩
      exact ⟨i, by omega, by omega, h3⟩
    cases hr : remote attempt with
    | transportErr =>
      have hassign : attemptAssigned (remote attempt) = false := by rw [hr]; rfl
      rw [show (pollFuel uuid remote maxAtt (fuel + 1) attempt lastData).result
            = (pollFuel uuid remote maxAtt fuel (attempt + 1) lastData).result by
          simp only [pollFuel, hr]]
      rw [ih (attempt + 1) lastData]
      constructor
      · exact shift _
      · rintro ⟨i, h1, h2, h3⟩
        rcases Nat.eq_or_lt_of_le h1 with heq | hlt
        · rw [← heq, hassign] at h3
          cases h3
        · exact ⟨i, by omega, by omega, h3⟩
    | resp code data =>
      cases hc : code == 200 with
      | false =>
        have hassign : attemptAssigned (remote attempt) = false := by
          rw [hr]
          simp [attemptAssigned, hc]
        rw [show (pollFuel uuid remote maxAtt (fuel + 1) attempt lastData).result
              = (pollFuel uuid remote maxAtt fuel (attempt + 1) lastData).result by
            simp only [pollFuel, hr, hc, Bool.false_eq_true, if_false]]
        rw [ih (attempt + 1) lastData]
        constructor
        · exact shift _
        · rintro ⟨i, h1, h2, h3⟩
          rcases Nat.eq_or_lt_of_le h1 with heq | hlt
          · rw [← heq, hassign] at h3
            cases h3
          · exact ⟨i, by omega, by omega, h3⟩
      | true =>
        cases hfa : findAssignedIp data.nics with
        | none =>
          have hassign : attemptAssigned (remote attempt) = false := by
            rw [hr]
            simp [attemptAssigned, hfa]
          rw [show (pollFuel uuid remote maxAtt (fuel + 1) attempt lastData).result
                = (pollFuel uuid remote maxAtt fuel (attempt + 1) (some data)).result by
              simp only [pollFuel, hr, hc, if_true, hfa]]
          rw [ih (attempt + 1) (some data)]
          constructor
          · exact shift _
          · rintro ⟨i, h1, h2, h3⟩
            rcases Nat.eq_or_lt_of_le h1 with heq | hlt
            · rw [← heq, hassign] at h3
              cases h3
            · exact ⟨i, by omega, by omega, h3⟩
        | some ip =>
          have hassign : attemptAssigned (remote attempt) = true := by
            rw [hr]
            simp [attemptAssigned, hc, hfa]
          constructor
          · intro _
            exact ⟨attempt, le_refl _, by omega, hassign⟩
          · intro _
            simp only [pollFuel, hr, hc, if_true, hfa]
            rfl

/-- Assembling the sleep list of a full (non-returning) run: the head
iteration sleeps exactly when it is not the last one. -/
theorem sleeps_assemble (attempt maxAtt fuel : Nat) (h : attempt + (fuel + 1) = maxAtt) :
    (if attempt < maxAtt - 1 then 30 :: List.replicate (fuel - 1) 30
     else List.replicate (fuel - 1) 30) = List.replicate fuel 30 := by
  cases fuel with
  | zero =>
    have hcond : ¬ attempt < maxAtt - 1 := by omega
    simp [hcond]
  | succ k =>
    have hcond : attempt < maxAtt - 1 := by omega
    simp [hcond, List.replicate_succ]

/-- When no attempt in the whole window carries an ASSIGNED address, the loop
runs all its iterations, sleeping between consecutive ones, and returns the
TIMEOUT record built from the accumulated `vm_data`. -/
theorem pollFuel_timeout (uuid : String) (remote : Nat → AttemptOutcome) (maxAtt : Nat) :
    ∀ fuel attempt lastData,
      attempt + fuel = maxAtt →
      (∀ i, attempt ≤ i → i < maxAtt → attemptAssigned (remote i) = false) →
      pollFuel uuid remote maxAtt fuel attempt lastData =
        { result := timeoutRecord uuid (lastOkFuel remote fuel attempt lastData)
          queries := fuel
          sleeps := List.replicate (fuel - 1) 30 } := by
  intro fuel
  induction fuel with
  | zero =>
    intro attempt lastData _ _
    simp [pollFuel, lastOkFuel]
  | succ fuel ih =>
    intro attempt lastData hsum hno
    have hstep := hno attempt (le_refl _) (by omega)
    have hrest : ∀ i, attempt + 1 ≤ i → i < maxAtt → attemptAssigned (remote i) = false :=
      fun i h1 h2 => hno i (by omega) h2
    cases hr : remote attempt with
    | transportErr =>
      simp only [pollFuel, hr, lastOkFuel,
        ih (attempt + 1) lastData (by omega) hrest]
      rw [sleeps_assemble attempt maxAtt fuel hsum, Nat.add_sub_cancel]
    | resp code data =>
      rw [hr] at hstep
      cases hc : code == 200 with
      | true =>
        have hfa : findAssignedIp data.nics = none := by
          cases hx : findAssignedIp data.nics with
          | none => rfl
          | some ip =>
            rw [show attemptAssigned (.resp code data)
                  = (code == 200 && (findAssignedIp data.nics).isSome) from rfl,
                hc, hx] at hstep
            simp at hstep
        simp only [pollFuel, hr, hc, if_true, hfa, lastOkFuel,
          ih (attempt + 1) (some data) (by omega) hrest]
        rw [sleeps_assemble attempt maxAtt fuel hsum, Nat.add_sub_cancel]
      | false =>
        simp only [pollFuel, hr, hc, Bool.false_eq_true, if_false, lastOkFuel,
          ih (attempt + 1) lastData (by omega) hrest]
        rw [sleeps_assemble attempt maxAtt fuel hsum, Nat.add_sub_cancel]

/-- If attempt `i` is the first one carrying an ASSIGNED address, the loop
stops there with the SUCCESS record of that response, having queried
`i - attempt + 1` times and slept after each earlier attempt. -/
theorem pollFuel_success_at (uuid : String) (remote : Nat → AttemptOutcome) (maxAtt : Nat) :
    ∀ fuel attempt lastData i code data ip,
      attempt + fuel = maxAtt →
      attempt ≤ i → i < maxAtt →
      (∀ j, attempt ≤ j → j < i → attemptAssigned (remote j) = false) →
      remote i = .resp code data →
      (code == 200) = true →
      findAssignedIp data.nics = some ip →
      pollFuel uuid remote maxAtt fuel attempt lastData =
        { result := successRecord uuid ip data
          queries := i - attempt + 1
          sleeps := List.replicate (i - attempt) 30 } := by
  intro fuel
  induction fuel with
  | zero =>
    intro attempt lastData i code data ip hsum h1 h2 _ _ _ _
    omega
  | succ fuel ih =>
    intro attempt lastData i code data ip hsum h1 h2 hfirst hri hc hfa
    rcases Nat.eq_or_lt_of_le h1 with heq | hlt
    · subst heq
      simp only [pollFuel, hri, hc, if_true, hfa, Nat.sub_self]
      rfl
    · have hnot := hfirst attempt (le_refl _) hlt
      have hfirst2 : ∀ j, attempt + 1 ≤ j → j < i → attemptAssigned (remote j) = false :=
        fun j ha hb => hfirst j (by omega) hb
      have hcond : attempt < maxAtt - 1 := by omega
      have hq : i - (attempt + 1) + 1 + 1 = i - attempt + 1 := by omega
      have hs : 30 :: List.replicate (i - (attempt + 1)) 30
          = List.replicate (i - attempt) 30 := by
        rw [show i - attempt = (i - (attempt + 1)) + 1 by omega, List.replicate_succ]
      cases hr : remote attempt with
      | transportErr =>
        simp only [pollFuel, hr,
          ih (attempt + 1) lastData i code data ip (by omega) (by omega) h2 hfirst2 hri hc hfa,
          hcond, if_true]
        rw [hq, hs]
      | resp c2 d2 =>
        rw [hr] at hnot
        cases hc2 : c2 == 200 with
        | true =>
          have hfa2 : findAssignedIp d2.nics = none := by
            cases hx : findAssignedIp d2.nics with
            | none => rfl
            | some ip2 =>
              rw [show attemptAssigned (.resp c2 d2)
                    = (c2 == 200 && (findAssignedIp d2.nics).isSome) from rfl,
                  hc2, hx] at hnot
              simp at hnot
          simp only [pollFuel, hr, hc2, if_true, hfa2,
            ih (attempt + 1) (some d2) i code data ip (by omega) (by omega) h2 hfirst2 hri hc hfa,
            hcond]
          rw [hq, hs]
        | false =>
          simp only [pollFuel, hr, hc2, Bool.false_eq_true, if_false,
            ih (attempt + 1) lastData i code data ip (by omega) (by omega) h2 hfirst2 hri hc hfa,
            hcond, if_true]
          rw [hq, hs]

/-- The most recent 200 response within the attempt window
`attempt .. attempt+fuel-1`, scanning from the latest attempt down. -/
def lastOkSeg (remote : Nat → AttemptOutcome) (attempt : Nat) : Nat → Option VmData
  | 0 => none
  | fuel + 1 =>
    match remote (attempt + fuel) with
    | .resp code d => if code == 200 then some d else lastOkSeg remote attempt fuel
    | .transportErr => lastOkSeg remote attempt fuel

/-- Peeling the bottom attempt off a "most recent 200 response" scan over the
window `attempt .. attempt+fuel`: the more recent part of the window wins. -/
theorem lastOk200_shift (remote : Nat → AttemptOutcome) :
    ∀ fuel attempt,
      lastOkSeg remote attempt (fuel + 1) =
        match lastOkSeg remote (attempt + 1) fuel with
        | some d => some d
        | none =>
          match remote attempt with
          | .resp code d => if code == 200 then some d else none
          | .transportErr => none := by
  intro fuel
  induction fuel with
  | zero =>
    intro attempt
    simp only [lastOkSeg, Nat.add_zero]
  | succ fuel ih =>
    intro attempt
    have htop : attempt + (fuel + 1) = (attempt + 1) + fuel := by omega
    rw [show lastOkSeg remote attempt (fuel + 1 + 1)
          = (match remote (attempt + (fuel + 1)) with
             | .resp code d => if code == 200 then some d else lastOkSeg remote attempt (fuel + 1)
             | .transportErr => lastOkSeg remote attempt (fuel + 1)) from rfl,
        show lastOkSeg remote (attempt + 1) (fuel + 1)
          = (match remote ((attempt + 1) + fuel) with
             | .resp code d => if code == 200 then some d else lastOkSeg remote (attempt + 1) fuel
             | .transportErr => lastOkSeg remote (attempt + 1) fuel) from rfl,
        htop]
    cases hr : remote ((attempt + 1) + fuel) with
    | transportErr => rw [ih attempt]
    | resp code d =>
      cases hc : code == 200 with
      | true => simp [hc]
      | false => simp only [hc, Bool.false_eq_true, if_false]; rw [ih attempt]

/-- The forward fold the loop performs over `vm_data` computes the most
recent 200 response of the window, falling back to the accumulator. -/
theorem lastOkFuel_eq_seg (remote : Nat → AttemptOutcome) :
    ∀ fuel attempt acc,
      lastOkFuel remote fuel attempt acc =
        match lastOkSeg remote attempt fuel with
        | some d => some d
        | none => acc := by
  intro fuel
  induction fuel with
  | zero =>
    intro attempt acc
    simp [lastOkFuel, lastOkSeg]
  | succ fuel ih =>
    intro attempt acc
    rw [show lastOkFuel remote (fuel + 1) attempt acc
          = lastOkFuel remote fuel (attempt + 1)
              (match remote attempt with
               | .resp code d => if code == 200 then some d else acc
               | .transportErr => acc) from rfl,
        ih (attempt + 1), lastOk200_shift remote fuel attempt]
    cases lastOkSeg remote (attempt + 1) fuel with
    | some d => rfl
    | none =>
      cases remote attempt with
      | transportErr => rfl
      | resp code d =>
        cases hcc : code == 200 with
        | true => simp [hcc]
        | false => simp [hcc]

/-- `lastOk200` over the whole session is the segment scan started at 0. -/
theorem lastOk200_eq_seg (remote : Nat → AttemptOutcome) :
    ∀ n, lastOk200 remote n = lastOkSeg remote 0 n := by
  intro n
  induction n with
  | zero => rfl
  | succ n ih =>
    rw [show lastOk200 remote (n + 1)
          = (match remote n with
             | .resp code d => if code == 200 then some d else lastOk200 remote n
             | .transportErr => lastOk200 remote n) from rfl,
        show lastOkSeg remote 0 (n + 1)
          = (match remote (0 + n) with
             | .resp code d => if code == 200 then some d else lastOkSeg remote 0 n
             | .transportErr => lastOkSeg remote 0 n) from rfl,
        Nat.zero_add]
    cases remote n with
    | transportErr => exact ih
    | resp code d =>
      cases hcc : code == 200 with
      | true => simp [hcc]
      | false => simp [hcc, ih]

/-- `findInNic` is the first-match scan of one endpoint list. -/
theorem findInNic_eq_findSome (nic : List IpEndpoint) :
    findInNic nic
      = List.findSome? (fun e => if endpointAssigned e then e.ip else none) nic := by
  induction nic with
  | nil => rfl
  | cons e es ih =>
    cases ha : endpointAssigned e with
    | false => simp [findInNic, List.findSome?_cons, ha, ih]
    | true =>
      have hip : ∃ s, e.ip = some s := by
        rcases hx : e.ip with _ | s
        · rw [show endpointAssigned e = (ipTruthy e.ip && (e.type.getD "UNKNOWN" == "ASSIGNED"))
                from rfl, hx] at ha
          simp [ipTruthy] at ha
        · exact ⟨s, rfl⟩
      rcases hip with ⟨s, hs⟩
      simp [findInNic, List.findSome?_cons, ha, hs]

/-- The poller's nested NIC scan finds the first passing address in
first-interface-then-first-address listed order: it equals the first-match
scan of the flattened endpoint list. -/
theorem findAssignedIp_eq_first (nics : List (List IpEndpoint)) :
    findAssignedIp nics
      = List.findSome? (fun e => if endpointAssigned e then e.ip else none) nics.flatten := by
  induction nics with
  | nil => rfl
  | cons nic rest ih =>
    rw [show (nic :: rest).flatten = nic ++ rest.flatten from rfl, List.findSome?_append, ← ih,
        ← findInNic_eq_findSome]
    cases hn : findInNic nic with
    | some ip => simp [findAssignedIp, hn]
    | none => simp [findAssignedIp, hn]

/-! ## Interactive Session Driver (`deploy_vm_automated_v2.py` / `v3.py` / `v4.py`) -/

/-- Python `dict.get(key, '')` over the passwords dictionary. -/
def dictGet (d : List (String × String)) (k : String) : String :=
  (d.lookup k).getD ""

/-- `automated_getpass` from `create_automated_getpass_function`: classify the
prompt by lowercased substring match and return the matching password,
printing `prompt` followed by one asterisk per password character.  Returns
(password, printed line). -/
def automated_getpass (passwords_dict : List (String × String))
    (prompt : String) : String × String :=
  let pl := pyLower prompt
  let password :=
    if strContains "admin" pl || strContains "administrator" pl then
      dictGet passwords_dict "admin_password"
    else if strContains "prism" pl || strContains "pc_" pl ||
        strContains "enter password for" pl then
      dictGet passwords_dict "pc_password"
    else
      dictGet passwords_dict "admin_password"
  (password, prompt ++ String.mk (List.replicate password.length '*'))

/-! ## Output Extractor (`deploy_vm_automated_v4.py`) -/

/-- A character the v4 pattern's classes accept: `[0-9a-f]` (lower-case hex
only — the compiled pattern has no IGNORECASE flag). -/
def isHexL (c : Char) : Bool :=
  (('0' ≤ c) && (c ≤ '9')) || (('a' ≤ c) && (c ≤ 'f'))

/-- Take exactly `n` lower-hex characters off the front. -/
def takeHexN : Nat → List Char → Option (List Char × List Char)
  | 0, cs => some ([], cs)
  | _ + 1, [] => none
  | n + 1, c :: cs =>
    if isHexL c then
      match takeHexN n cs with
      | some (m, r) => some (c :: m, r)
      | none => none
    else none

/-- Consume one literal hyphen. -/
def expectDash : List Char → Option (List Char)
  | [] => none
  | c :: r => if c = '-' then some r else none

/-- Match the pattern `[0-9a-f]{8}-[0-9a-f]{4}-[0-9a-f]{4}-[0-9a-f]{4}-[0-9a-f]{12}`
anchored at the front of `cs`, returning the matched text. -/
def matchUuidAt (cs : List Char) : Option (List Char) := do
  let g1r ← takeHexN 8 cs
  let r1 ← expectDash g1r.2
  let g2r ← takeHexN 4 r1
  let r2 ← expectDash g2r.2
  let g3r ← takeHexN 4 r2
  let r3 ← expectDash g3r.2
  let g4r ← takeHexN 4 r3
  let r4 ← expectDash g4r.2
  let g5r ← takeHexN 12 r4
  pure (g1r.1 ++ '-' :: (g2r.1 ++ '-' :: (g3r.1 ++ '-' :: (g4r.1 ++ '-' :: g5r.1))))

/-- `re.search(uuid_pattern, line)`: the match at the leftmost position where
the (fixed-length, backtracking-free) pattern fires. -/
def searchUuid : List Char → Option (List Char)
  | [] => none
  | c :: rest =>
    match matchUuidAt (c :: rest) with
    | some u => some u
    | none => searchUuid rest

/-- The line loop of `extract_uuids_from_output` (v4): `if 'VM UUID:' in line`
stores the line's pattern match over `vm_uuid`, `elif 'Task UUID:' in line`
over `task_uuid`; each assignment overwrites the previous value. -/
def extractLines : List (List Char) → String × String → String × String
  | [], acc => acc
  | line :: rest, (vm, task) =>
    if listContainsSub "VM UUID:".data line then
      match searchUuid line with
      | some u => extractLines rest (String.mk u, task)
      | none => extractLines rest (vm, task)
    else if listContainsSub "Task UUID:".data line then
      match searchUuid line with
      | some u => extractLines rest (vm, String.mk u)
      | none => extractLines rest (vm, task)
    else extractLines rest (vm, task)

/-- `extract_uuids_from_output(output_text)` of `deploy_vm_automated_v4.py`:
split on newlines, scan each line, starting from the empty-string defaults. -/
def extract_uuids_from_output (output_text : String) : String × String :=
  extractLines (pySplitNl output_text.data) ("", "")

example :
    extract_uuids_from_output
        "VM UUID: 12345678-1234-1234-1234-123456789abc\nTask UUID: abcdef01-2345-6789-abcd-ef0123456789"
      = ("12345678-1234-1234-1234-123456789abc", "abcdef01-2345-6789-abcd-ef0123456789") := by
  decide

/-! ## Process-wide prompt primitives (`run_automated_deployment`) -/

/-- The process-wide prompt primitives the wrappers monkey-patch:
`builtins.input`, `getpass.getpass` and `builtins.print`, abstracted over the
type of function values. -/
structure Globals (F : Type) where
  input : F
  getpass : F
  print : F
deriving Repr, DecidableEq

/-- The automation branch of `run_automated_deployment` in
`deploy_vm_automated_v2.py`: save the three originals, install the patched
functions, run the driven program (`exec_module`, which sees — and may even
itself mutate — the globals, and either completes or raises an `Exception`,
caught and turned into exit code 1), then in `finally` write the three saved
originals back.  Returns the final globals and the exit code. -/
def run_automated_deployment_v2_globals {F : Type} (g : Globals F)
    (patchedInput patchedGetpass patchedPrint : F)
    (driven : Globals F → Globals F × Bool) : Globals F × Int :=
  let original_input := g.input
  let original_getpass := g.getpass
  let original_print := g.print
  let patched : Globals F :=
    { input := patchedInput, getpass := patchedGetpass, print := patchedPrint }
  let afterRun := driven patched
  let code : Int := if afterRun.2 then 1 else 0
  let restored : Globals F :=
    { afterRun.1 with
      input := original_input
      getpass := original_getpass
      print := original_print }
  (restored, code)

/-- Same for `deploy_vm_automated_v3.py`, which patches and restores only
`builtins.input` and `getpass.getpass` (no print capture). -/
def run_automated_deployment_v3_globals {F : Type} (g : Globals F)
    (patchedInput patchedGetpass : F)
    (driven : Globals F → Globals F × Bool) : Globals F × Int :=
  let original_input := g.input
  let original_getpass := g.getpass
  let patched : Globals F := { g with input := patchedInput, getpass := patchedGetpass }
  let afterRun := driven patched
  let code : Int := if afterRun.2 then 1 else 0
  let restored : Globals F :=
    { afterRun.1 with input := original_input, getpass := original_getpass }
  (restored, code)

/-! ## Polling CLI entry point (`get_vm_ip.py`, `main`) -/

/-- `main()` of `get_vm_ip.py` up to and including the polling call:
wrong argument count exits 1; a missing deployment-config file
(`FileNotFoundError`) exits 1; a missing `pc_ip` or `username` key
(`KeyError`) exits 1 — all before any HTTP request.  Otherwise the poller
runs with the default `max_wait_minutes = 10`.  Returns the process exit
code and the number of network queries issued. -/
def mainPoll (argv : List String) (config : Option (List (String × String)))
    (remote : Nat → AttemptOutcome) : Nat × Nat :=
  if argv.length ≠ 2 then (1, 0)
  else
    match config with
    | none => (1, 0)
    | some c =>
      match c.lookup "pc_ip" with
      | none => (1, 0)
      | some _ =>
        match c.lookup "username" with
        | none => (1, 0)
        | some _ =>
          let out := get_vm_ip_address (argv.getD 1 "") remote 10
          (0, out.queries)

/-! ## Output Extractor lemmas -/

/-- The v4 extractor's per-line update of `vm_uuid`. -/
def vmStep (acc : String) (line : List Char) : String :=
  if listContainsSub "VM UUID:".data line then
    match searchUuid line with
    | some u => String.mk u
    | none => acc
  else acc

/-- The v4 extractor's per-line update of `task_uuid` (the `elif`: a line
holding the VM marker is never scanned for the task marker). -/
def taskStep (acc : String) (line : List Char) : String :=
  if listContainsSub "VM UUID:".data line then acc
  else if listContainsSub "Task UUID:".data line then
    match searchUuid line with
    | some u => String.mk u
    | none => acc
  else acc

/-- The extractor's loop is a left fold of the two per-line updates: each
matching line overwrites the accumulated value, so the LAST match wins. -/
theorem extractLines_eq_foldl :
    ∀ (lines : List (List Char)) (vm task : String),
      extractLines lines (vm, task) = (lines.foldl vmStep vm, lines.foldl taskStep task) := by
  intro lines
  induction lines with
  | nil => intro vm task; rfl
  | cons line rest ih =>
    intro vm task
    cases hv : listContainsSub "VM UUID:".data line with
    | true =>
      cases hs : searchUuid line with
      | some u =>
        simp only [extractLines, hv, if_true, hs, List.foldl_cons, vmStep, taskStep, ih]
      | none =>
        simp only [extractLines, hv, if_true, hs, List.foldl_cons, vmStep, taskStep, ih]
    | false =>
      cases ht : listContainsSub "Task UUID:".data line with
      | true =>
        cases hs : searchUuid line with
        | some u =>
          simp only [extractLines, hv, ht, Bool.false_eq_true, if_false, if_true, hs,
            List.foldl_cons, vmStep, taskStep, ih]
        | none =>
          simp only [extractLines, hv, ht, Bool.false_eq_true, if_false, if_true, hs,
            List.foldl_cons, vmStep, taskStep, ih]
      | false =>
        simp only [extractLines, hv, ht, Bool.false_eq_true, if_false,
          List.foldl_cons, vmStep, taskStep, ih]

/-- Well-formedness against the identifier pattern: five all-lower-hex groups
of lengths 8-4-4-4-12 joined by hyphens. -/
def UuidShape (u : List Char) : Prop :=
  ∃ g1 g2 g3 g4 g5 : List Char,
    g1.length = 8 ∧ g2.length = 4 ∧ g3.length = 4 ∧ g4.length = 4 ∧ g5.length = 12 ∧
    (∀ c, c ∈ g1 ++ g2 ++ g3 ++ g4 ++ g5 → isHexL c = true) ∧
    u = g1 ++ '-' :: (g2 ++ '-' :: (g3 ++ '-' :: (g4 ++ '-' :: g5)))

/-- What `takeHexN` returns really is `n` lower-hex characters. -/
theorem takeHexN_spec :
    ∀ (n : Nat) (cs : List Char) (p : List Char × List Char),
      takeHexN n cs = some p → p.1.length = n ∧ ∀ c, c ∈ p.1 → isHexL c = true := by
  intro n
  induction n with
  | zero =>
    intro cs p h
    rw [show takeHexN 0 cs = some ([], cs) from rfl] at h
    cases h
    exact ⟨rfl, by intro c hc; cases hc⟩
  | succ n ih =>
    intro cs p h
    cases cs with
    | nil => cases h
    | cons c cs2 =>
      rw [show takeHexN (n + 1) (c :: cs2)
            = (if isHexL c then
                 match takeHexN n cs2 with
                 | some (m, r) => some (c :: m, r)
                 | none => none
               else none) from rfl] at h
      cases hhex : isHexL c with
      | false => rw [hhex] at h; cases h
      | true =>
        rw [hhex, if_pos rfl] at h
        cases htk : takeHexN n cs2 with
        | none => rw [htk] at h; cases h
        | some q =>
          rw [htk] at h
          obtain ⟨m2, r2⟩ := q
          cases h
          obtain ⟨hl, hm⟩ := ih cs2 (m2, r2) htk
          refine ⟨by simpa using hl, ?_⟩
          intro x hx
          rcases List.mem_cons.mp hx with hx | hx
      
        
          · rw [hx]; exact hhex
          · exact hm x hx

/-- `expectDash` consumes exactly one hyphen. -/
theorem expectDash_spec (cs r : List Char) (h : expectDash cs = some r) :
    cs = '-' :: r := by
  cases cs with
  | nil => cases h
  | cons c r2 =>
    rw [show expectDash (c :: r2) = (if c = '-' then some r2 else none) from rfl] at h
    by_cases hc : c = '-'
    · rw [if_pos hc] at h
      cases h
      rw [hc]
    · rw [if_neg hc] at h
      cases h

/-- Anything the anchored pattern matcher returns is pattern-shaped. -/
theorem matchUuidAt_shape (cs u : List Char) (h : matchUuidAt cs = some u) :
    UuidShape u := by
  simp only [matchUuidAt, bind, Option.bind_eq_some, Option.pure_def,
    Option.some.injEq] at h
  obtain ⟨g1r, h1, r1, hd1, g2r, h2, r2, hd2, g3r, h3, r3, hd3, g4r, h4, r4, hd4,
    g5r, h5, hu⟩ := h
  obtain ⟨l1, m1⟩ := takeHexN_spec 8 cs g1r h1
  obtain ⟨l2, m2⟩ := takeHexN_spec 4 r1 g2r h2
  obtain ⟨l3, m3⟩ := takeHexN_spec 4 r2 g3r h3
  obtain ⟨l4, m4⟩ := takeHexN_spec 4 r3 g4r h4
  obtain ⟨l5, m5⟩ := takeHexN_spec 12 r4 g5r h5
  refine ⟨g1r.1, g2r.1, g3r.1, g4r.1, g5r.1, l1, l2, l3, l4, l5, ?_, hu.symm⟩
  intro c hc
  simp only [List.mem_append] at hc
  rcases hc with (((hc | hc) | hc) | hc) | hc
  · exact m1 c hc
  · exact m2 c hc
  · exact m3 c hc
  · exact m4 c hc
  · exact m5 c hc

/-- Anything `re.search` for the v4 pattern returns is pattern-shaped. -/
theorem searchUuid_shape :
    ∀ (s u : List Char), searchUuid s = some u → UuidShape u := by
  intro s
  induction s with
  | nil => intro u h; cases h
  | cons c rest ih =>
    intro u h
    simp only [searchUuid] at h
    cases hm : matchUuidAt (c :: rest) with
    | some v =>
      rw [hm] at h
      cases h
      exact matchUuidAt_shape _ _ hm
    | none =>
      rw [hm] at h
      exact ih u h

/-- A pattern-shaped identifier has exactly 36 characters. -/
theorem UuidShape_length (u : List Char) (h : UuidShape u) : u.length = 36 := by
  obtain ⟨g1, g2, g3, g4, g5, l1, l2, l3, l4, l5, _, hu⟩ := h
  subst hu
  simp [List.length_append, l1, l2, l3, l4, l5]

/-- The vm fold only ever holds the empty default or a pattern-shaped value. -/
theorem foldl_vmStep_shape :
    ∀ (lines : List (List Char)) (acc : String),
      (acc ≠ "" → UuidShape acc.data) →
      (lines.foldl vmStep acc ≠ "" → UuidShape (lines.foldl vmStep acc).data) := by
  intro lines
  induction lines with
  | nil => intro acc hacc; exact hacc
  | cons line rest ih =>
    intro acc hacc
    rw [List.foldl_cons]
    refine ih (vmStep acc line) ?_
    intro hne
    rw [vmStep] at hne ⊢
    cases hv : listContainsSub "VM UUID:".data line with
    | false =>
      rw [hv] at hne
      simp only [Bool.false_eq_true, if_false] at hne ⊢
      exact hacc hne
    | true =>
      rw [hv] at hne
      simp only [if_true] at hne ⊢
      cases hs : searchUuid line with
      | some u =>
        exact searchUuid_shape line u hs
      | none =>
        rw [hs] at hne
        exact hacc hne

/-- The task fold only ever holds the empty default or a pattern-shaped value. -/
theorem foldl_taskStep_shape :
    ∀ (lines : List (List Char)) (acc : String),
      (acc ≠ "" → UuidShape acc.data) →
      (lines.foldl taskStep acc ≠ "" → UuidShape (lines.foldl taskStep acc).data) := by
  intro lines
  induction lines with
  | nil => intro acc hacc; exact hacc
  | cons line rest ih =>
    intro acc hacc
    rw [List.foldl_cons]
    refine ih (taskStep acc line) ?_
    intro hne
    rw [taskStep] at hne ⊢
    cases hv : listContainsSub "VM UUID:".data line with
    | true =>
      rw [hv] at hne
      simp only [if_true] at hne ⊢
      exact hacc hne
    | false =>
      rw [hv] at hne
      simp only [Bool.false_eq_true, if_false] at hne ⊢
      cases ht : listContainsSub "Task UUID:".data line with
      | false =>
        rw [ht] at hne
        simp only [Bool.false_eq_true, if_false] at hne ⊢
        exact hacc hne
      | true =>
        rw [ht] at hne
        simp only [if_true] at hne ⊢
        cases hs : searchUuid line with
        | some u =>
          exact searchUuid_shape line u hs
        | none =>
          rw [hs] at hne
          exact hacc hne

/-! ## Concrete remotes used by witnesses and counterexamples -/

/-- A remote whose every response is HTTP 200 with one LEARNED address. -/
def demoLearnedRemote : Nat → AttemptOutcome := fun _ =>
  .resp 200
    { name := some "winvm", power_state := some "ON",
      nics := [[{ ip := some "10.0.0.9", type := some "LEARNED" }]] }

/-- A remote on which every request fails at the transport level. -/
def demoErrRemote : Nat → AttemptOutcome := fun _ => .transportErr

/-- A remote failing on attempt 0 and returning an endpoint-free 200
response afterwards. -/
def demoMixedRemote : Nat → AttemptOutcome := fun i =>
  if i = 0 then .transportErr
  else .resp 200 { name := some "winvm", power_state := some "ON", nics := [[]] }

/-! ## Claim theorems: Readiness Poller -/

/-- C1 (amended): for every polling session, the outcome of
`get_vm_ip_address` is SUCCESS iff some attempt observed, on an HTTP 200
response, an endpoint with a truthy address of category exactly ASSIGNED —
LEARNED is NOT accepted by the poller's loop.  On the first such attempt the
returned record carries the first passing address in
first-interface-then-first-address listed order (`findAssignedIp` is
precisely the first-match scan of the flattened endpoint list). -/
theorem c1_poller_success_iff_assigned (uuid : String)
    (remote : Nat → AttemptOutcome) (m : Nat) :
    ((get_vm_ip_address uuid remote m).result.status = "SUCCESS" ↔
      ∃ i, i < m * 2 ∧ attemptAssigned (remote i) = true)
    ∧ (∀ i code data ip,
        i < m * 2 →
        (∀ j, j < i → attemptAssigned (remote j) = false) →
        remote i = .resp code data →
        (code == 200) = true →
        findAssignedIp data.nics = some ip →
        (get_vm_ip_address uuid remote m).result = successRecord uuid ip data)
    ∧ (∀ nics, findAssignedIp nics
        = List.findSome? (fun e => if endpointAssigned e then e.ip else none)
            nics.flatten) := by
  refine ⟨?_, ?_, findAssignedIp_eq_first⟩
  · rw [get_vm_ip_address, pollFuel_success_iff]
    constructor
    · rintro ⟨i, _, h2, h3⟩
      exact ⟨i, by omega, h3⟩
    · rintro ⟨i, h1, h3⟩
      exact ⟨i, Nat.zero_le i, by omega, h3⟩
  · intro i code data ip h1 hfirst hri hc hfa
    rw [get_vm_ip_address,
      pollFuel_success_at uuid remote (m * 2) (m * 2) 0 none i code data ip
        (by omega) (Nat.zero_le i) h1 (fun j _ hb => hfirst j hb) hri hc hfa]

/-- C1 counterexample: a session whose every response shows a LEARNED
address.  The claim ("ASSIGNED or LEARNED, the two treated equivalently")
predicts SUCCESS; the poller instead runs to TIMEOUT with no address. -/
theorem c1_counterexample :
    demoLearnedRemote 0
      = .resp 200
          { name := some "winvm", power_state := some "ON",
            nics := [[{ ip := some "10.0.0.9", type := some "LEARNED" }]] }
    ∧ (get_vm_ip_address "vm-1" demoLearnedRemote 1).result.status = "TIMEOUT"
    ∧ (get_vm_ip_address "vm-1" demoLearnedRemote 1).result.ip_address = none :=
  ⟨rfl, by decide, by decide⟩

/-- C3: with a budget of `m ≥ 1` minutes and a remote that never shows an
ASSIGNED address, the poller performs exactly `m * 2` query attempts, sleeps
a fixed 30 time units between consecutive attempts (so `m * 2 - 1` sleeps),
and returns a TIMEOUT record. -/
theorem c3_timeout_exact_attempts (uuid : String) (remote : Nat → AttemptOutcome)
    (m : Nat) (_hm : 1 ≤ m)
    (hnever : ∀ i, attemptAssigned (remote i) = false) :
    (get_vm_ip_address uuid remote m).queries = m * 2
    ∧ (get_vm_ip_address uuid remote m).sleeps = List.replicate (m * 2 - 1) 30
    ∧ (get_vm_ip_address uuid remote m).result.status = "TIMEOUT" := by
  rw [get_vm_ip_address,
    pollFuel_timeout uuid remote (m * 2) (m * 2) 0 none (by omega)
      (fun i _ _ => hnever i)]
  exact ⟨rfl, rfl, rfl⟩

/-- C3 witness: one minute of budget against the all-transport-failure
remote gives exactly 2 attempts, one 30-unit sleep, and TIMEOUT. -/
theorem c3_witness :
    (get_vm_ip_address "vm-1" demoErrRemote 1).queries = 2
    ∧ (get_vm_ip_address "vm-1" demoErrRemote 1).sleeps = [30]
    ∧ (get_vm_ip_address "vm-1" demoErrRemote 1).result.status = "TIMEOUT" := by
  have h := c3_timeout_exact_attempts "vm-1" demoErrRemote 1 (by decide) (fun i => rfl)
  exact ⟨h.1, h.2.1, h.2.2⟩

/-- C7 (amended): the poller never returns an ERROR outcome — every session
ends in SUCCESS or TIMEOUT — and in particular a session in which every
attempt fails at the transport level ends in TIMEOUT. -/
theorem c7_never_error (uuid : String) (remote : Nat → AttemptOutcome) (m : Nat) :
    ((get_vm_ip_address uuid remote m).result.status = "SUCCESS"
      ∨ (get_vm_ip_address uuid remote m).result.status = "TIMEOUT")
    ∧ ((∀ i, i < m * 2 → remote i = .transportErr) →
        (get_vm_ip_address uuid remote m).result.status = "TIMEOUT") := by
  constructor
  · exact pollFuel_status_cases uuid remote (m * 2) (m * 2) 0 none
  · intro hall
    rw [get_vm_ip_address,
      pollFuel_timeout uuid remote (m * 2) (m * 2) 0 none (by omega)
        (fun i _ hi => by rw [hall i (by omega)]; rfl)]
    rfl

/-- C7 counterexample: a one-minute session in which both attempts fail at
the transport level.  The claim ("ERROR iff every attempt failed at the
transport level") predicts ERROR; the poller returns TIMEOUT. -/
theorem c7_counterexample :
    demoErrRemote 0 = .transportErr
    ∧ demoErrRemote 1 = .transportErr
    ∧ (get_vm_ip_address "vm-1" demoErrRemote 1).result.status = "TIMEOUT"
    ∧ (get_vm_ip_address "vm-1" demoErrRemote 1).result.status ≠ "ERROR" :=
  ⟨rfl, rfl, by decide, by decide⟩

/-- C10: when the deadline elapses (no attempt passed the ASSIGNED test),
the TIMEOUT record has `ip_address` none, and its `vm_name` / `power_state`
come from the most recent HTTP 200 response of the session
(`lastOk200`, the scan from the latest attempt down), or are the literals
Unknown / UNKNOWN when no query ever returned 200. -/
theorem c10_timeout_record_fields (uuid : String) (remote : Nat → AttemptOutcome)
    (m : Nat) (hnever : ∀ i, i < m * 2 → attemptAssigned (remote i) = false) :
    (get_vm_ip_address uuid remote m).result.status = "TIMEOUT"
    ∧ (get_vm_ip_address uuid remote m).result.ip_address = none
    ∧ (get_vm_ip_address uuid remote m).result.vm_name
        = timeoutName (lastOk200 remote (m * 2))
    ∧ (get_vm_ip_address uuid remote m).result.power_state
        = timeoutPower (lastOk200 remote (m * 2)) := by
  have hrw : lastOkFuel remote (m * 2) 0 none = lastOk200 remote (m * 2) := by
    rw [lastOkFuel_eq_seg remote (m * 2) 0 none, lastOk200_eq_seg remote (m * 2)]
    cases lastOkSeg remote 0 (m * 2) with
    | some d => rfl
    | none => rfl
  rw [get_vm_ip_address,
    pollFuel_timeout uuid remote (m * 2) (m * 2) 0 none (by omega)
      (fun i _ hi => hnever i (by omega)), hrw]
  exact ⟨rfl, rfl, rfl, rfl⟩

/-- C10 witness: transport failure then an endpoint-free 200 response — the
TIMEOUT record carries the name and power state of that 200 response. -/
theorem c10_witness :
    (get_vm_ip_address "vm-1" demoMixedRemote 1).result.status = "TIMEOUT"
    ∧ (get_vm_ip_address "vm-1" demoMixedRemote 1).result.ip_address = none
    ∧ (get_vm_ip_address "vm-1" demoMixedRemote 1).result.vm_name = "winvm"
    ∧ (get_vm_ip_address "vm-1" demoMixedRemote 1).result.power_state = "ON" := by
  have h := c10_timeout_record_fields "vm-1" demoMixedRemote 1
    (fun i hi =>
      match i, hi with
      | 0, _ => rfl
      | 1, _ => rfl
      | n + 2, hi => absurd hi (by omega))
  exact ⟨h.1, h.2.1, h.2.2.1, h.2.2.2⟩

/-! ## Claim theorems: Interactive Session Driver -/

/-- C6: `automated_getpass` returns the admin secret when the lowercased
prompt contains "admin" or "administrator"; otherwise the Prism Central
secret when it contains "prism", "pc_" or "enter password for"; otherwise
the admin secret by default — and what it echoes is the prompt followed by
exactly one asterisk per character of the returned secret, never the secret
itself. -/
theorem c6_getpass_classification (passwords_dict : List (String × String))
    (prompt : String) :
    ((strContains "admin" (pyLower prompt) = true
        ∨ strContains "administrator" (pyLower prompt) = true) →
      (automated_getpass passwords_dict prompt).1
        = dictGet passwords_dict "admin_password")
    ∧ (strContains "admin" (pyLower prompt) = false →
       strContains "administrator" (pyLower prompt) = false →
       (strContains "prism" (pyLower prompt) = true
         ∨ strContains "pc_" (pyLower prompt) = true
         ∨ strContains "enter password for" (pyLower prompt) = true) →
       (automated_getpass passwords_dict prompt).1
         = dictGet passwords_dict "pc_password")
    ∧ (strContains "admin" (pyLower prompt) = false →
       strContains "administrator" (pyLower prompt) = false →
       strContains "prism" (pyLower prompt) = false →
       strContains "pc_" (pyLower prompt) = false →
       strContains "enter password for" (pyLower prompt) = false →
       (automated_getpass passwords_dict prompt).1
         = dictGet passwords_dict "admin_password")
    ∧ (automated_getpass passwords_dict prompt).2
        = prompt ++ String.mk
            (List.replicate (automated_getpass passwords_dict prompt).1.length '*') := by
  refine ⟨?_, ?_, ?_, rfl⟩
  · intro h
    rcases h with h | h <;> simp [automated_getpass, h]
  · intro h1 h2 h3
    rcases h3 with h | h | h <;> simp [automated_getpass, h1, h2, h]
  · intro h1 h2 h3 h4 h5
    simp [automated_getpass, h1, h2, h3, h4, h5]

/-! ## Claim theorems: frame effect of the wrappers -/

/-- C9: after `run_automated_deployment` returns — whether the driven
program completed normally or raised — the process-wide prompt primitives
equal their pre-run values: v2 restores `builtins.input`, `getpass.getpass`
and `builtins.print`; v3 restores `builtins.input` and `getpass.getpass`
(its patching never touches print). -/
theorem c9_globals_restored (F : Type) (g : Globals F)
    (patchedInput patchedGetpass patchedPrint : F)
    (driven : Globals F → Globals F × Bool) :
    (run_automated_deployment_v2_globals g patchedInput patchedGetpass
        patchedPrint driven).1 = g
    ∧ (run_automated_deployment_v3_globals g patchedInput patchedGetpass
        driven).1.input = g.input
    ∧ (run_automated_deployment_v3_globals g patchedInput patchedGetpass
        driven).1.getpass = g.getpass := by
  refine ⟨?_, rfl, rfl⟩
  cases g
  rfl

/-! ## Claim theorems: polling CLI configuration errors -/

/-- C8: when the deployment-config file is absent, or present without the
`pc_ip` or `username` key, the polling CLI exits nonzero having issued no
network query at all. -/
theorem c8_config_error_before_network (argv : List String)
    (config : Option (List (String × String))) (remote : Nat → AttemptOutcome)
    (hbad : config = none
      ∨ ∃ c, config = some c
          ∧ (c.lookup "pc_ip" = none ∨ c.lookup "username" = none)) :
    (mainPoll argv config remote).1 ≠ 0 ∧ (mainPoll argv config remote).2 = 0 := by
  by_cases hlen : argv.length ≠ 2
  · simp [mainPoll, hlen]
  · rcases hbad with hn | ⟨c, hc, hkey⟩
    · subst hn
      simp [mainPoll, hlen]
    · subst hc
      rcases hkey with hk | hk
      · simp [mainPoll, hlen, hk]
      · cases hpc : c.lookup "pc_ip" with
        | none => simp [mainPoll, hlen, hpc]
        | some v => simp [mainPoll, hlen, hpc, hk]

/-- C8 witness: absent config file, well-formed argv — exit code nonzero and
zero network queries. -/
theorem c8_witness :
    (mainPoll ["get_vm_ip.py", "vm-1"] none demoErrRemote).1 ≠ 0
    ∧ (mainPoll ["get_vm_ip.py", "vm-1"] none demoErrRemote).2 = 0 :=
  c8_config_error_before_network ["get_vm_ip.py", "vm-1"] none demoErrRemote (Or.inl rfl)

/-- Lines without a pattern match never change the vm accumulator. -/
theorem foldl_vmStep_nomatch :
    ∀ (lines : List (List Char)) (acc : String),
      (∀ line, line ∈ lines → searchUuid line = none) →
      lines.foldl vmStep acc = acc := by
  intro lines
  induction lines with
  | nil => intro acc _; rfl
  | cons line rest ih =>
    intro acc hall
    have hs := hall line (List.mem_cons_self line rest)
    rw [List.foldl_cons]
    have hstep : vmStep acc line = acc := by
      cases hv : listContainsSub "VM UUID:".data line with
      | false => simp [vmStep, hv]
      | true => simp [vmStep, hv, hs]
    rw [hstep]
    exact ih acc (fun l hl => hall l (List.mem_cons_of_mem line hl))

/-- Lines without a pattern match never change the task accumulator. -/
theorem foldl_taskStep_nomatch :
    ∀ (lines : List (List Char)) (acc : String),
      (∀ line, line ∈ lines → searchUuid line = none) →
      lines.foldl taskStep acc = acc := by
  intro lines
  induction lines with
  | nil => intro acc _; rfl
  | cons line rest ih =>
    intro acc hall
    have hs := hall line (List.mem_cons_self line rest)
    rw [List.foldl_cons]
    have hstep : taskStep acc line = acc := by
      cases hv : listContainsSub "VM UUID:".data line with
      | true => simp [taskStep, hv]
      | false =>
        cases ht : listContainsSub "Task UUID:".data line with
        | false => simp [taskStep, hv, ht]
        | true => simp [taskStep, hv, ht, hs]
    rw [hstep]
    exact ih acc (fun l hl => hall l (List.mem_cons_of_mem line hl))

/-! ## Claim theorems: Output Extractor -/

/-- C2 (amended): the v4 extractor retains the LAST match for each label —
its line loop is a left fold whose per-line update overwrites the stored
value on every matching labeled line, so a later duplicate label with a
matching identifier replaces the earlier one; in particular appending a
matching 'VM UUID:' line makes its identifier the extracted one. -/
theorem c2_extractor_last_write_wins :
    (∀ text : String,
      extract_uuids_from_output text
        = ((pySplitNl text.data).foldl vmStep "",
           (pySplitNl text.data).foldl taskStep ""))
    ∧ (∀ (lines : List (List Char)) (line : List Char) (u : List Char),
        listContainsSub "VM UUID:".data line = true →
        searchUuid line = some u →
        (extractLines (lines ++ [line]) ("", "")).1 = String.mk u) := by
  constructor
  · intro text
    exact extractLines_eq_foldl (pySplitNl text.data) "" ""
  · intro lines line u hcv hsu
    rw [extractLines_eq_foldl]
    simp only [List.foldl_append, List.foldl_cons, List.foldl_nil]
    simp [vmStep, hcv, hsu]

/-- C2 counterexample: a text holding the 'VM UUID:' label twice with two
different matching identifiers.  The claim (first-write-wins) predicts the
first identifier; the extractor returns the second. -/
theorem c2_counterexample :
    extract_uuids_from_output
        "VM UUID: aaaaaaaa-aaaa-aaaa-aaaa-aaaaaaaaaaaa\nVM UUID: bbbbbbbb-bbbb-bbbb-bbbb-bbbbbbbbbbbb"
      = ("bbbbbbbb-bbbb-bbbb-bbbb-bbbbbbbbbbbb", "")
    ∧ ("bbbbbbbb-bbbb-bbbb-bbbb-bbbbbbbbbbbb" : String)
        ≠ "aaaaaaaa-aaaa-aaaa-aaaa-aaaaaaaaaaaa" :=
  ⟨by decide, by decide⟩

/-- C5 (amended): every identifier the v4 extractor yields matches the
8-4-4-4-12 grouping with lower-case hex digits only (the compiled pattern
carries no IGNORECASE flag, so upper-case identifiers are not extracted),
or is the empty not-found default; and when no line's scan matches, both
extracted values stay empty. -/
theorem c5_extractor_wellformed (text : String) :
    ((extract_uuids_from_output text).1 ≠ "" →
      UuidShape (extract_uuids_from_output text).1.data)
    ∧ ((extract_uuids_from_output text).2 ≠ "" →
      UuidShape (extract_uuids_from_output text).2.data)
    ∧ ((∀ line, line ∈ pySplitNl text.data → searchUuid line = none) →
      extract_uuids_from_output text = ("", "")) := by
  refine ⟨?_, ?_, ?_⟩
  · rw [extract_uuids_from_output, extractLines_eq_foldl]
    exact fun h =>
      foldl_vmStep_shape (pySplitNl text.data) "" (fun hf => absurd rfl hf) h
  · rw [extract_uuids_from_output, extractLines_eq_foldl]
    exact fun h =>
      foldl_taskStep_shape (pySplitNl text.data) "" (fun hf => absurd rfl hf) h
  · intro hall
    rw [extract_uuids_from_output, extractLines_eq_foldl,
      foldl_vmStep_nomatch (pySplitNl text.data) "" hall,
      foldl_taskStep_nomatch (pySplitNl text.data) "" hall]

/-- C5 counterexample: a labeled line holding an upper-case-hex identifier
in the 8-4-4-4-12 grouping.  The claim ("case-insensitively, so an
uppercase-hex identifier on a labeled line is extracted") predicts
extraction; the v4 extractor, whose compiled pattern has no IGNORECASE
flag, yields nothing for either label. -/
theorem c5_counterexample :
    strContains "VM UUID:" "VM UUID: ABCDEF01-2345-6789-ABCD-EF0123456789" = true
    ∧ extract_uuids_from_output "VM UUID: ABCDEF01-2345-6789-ABCD-EF0123456789"
      = ("", "") :=
  ⟨by decide, by decide⟩
